import Mathlib

/-!
Verification development for the Reflect journaling backend.

This file gives a shallow embedding, in Lean 4, of the pattern-analysis and
insight-generation core of the repository:

* the 5-day period bucketing of `backend/server.py`
  (`_current_5day_period`, `_last_completed_5day_period`),
* the three-stage analysis pipeline of `backend/pattern_analyzer.py`
  (`parse_situations_response`, `_clean_letter`,
  `_gentle_insufficient_data_message`, `_shallow_fallback_sync`,
  `analyze_patterns_deep_sync`),
* the shallow one-shot letter generator of `backend/ollama_client.py`
  (`get_insight_letter`, `_build_reflections_summary_simple`),
* the insight-store boundary of `backend/supabase_client.py`
  (`_validate_week_start`, `get_weekly_insight_by_week`,
  `insert_weekly_insight`, `delete_weekly_insight`),
* the letter endpoint `insights_letter` of `backend/server.py`.

External collaborators (the LLM gateway, the Supabase client, the entry
source, the system clock) are modelled as injected pure values; a raised
Python exception is modelled as `Except.error ()`.

Modelling ledger (approximations that are sound for all theorems below):
* Python `str.strip`/`str.lower` strip / lower-case only ASCII characters in
  the model, and `re` digit classes are ASCII; the repository only exercises
  them on ASCII text.
* Python floats inside JSON values keep their source lexeme instead of being
  re-rendered by `repr`; `str()` of nested containers approximates Python
  `repr` without re-escaping special characters.  Field values in the claims
  are strings, where the model is exact.
-/

set_option maxRecDepth 10000

namespace Reflect

/-! ## Python string primitives -/

/-- The whitespace characters stripped by Python `str.strip()` (ASCII part). -/
def pyWs (c : Char) : Bool :=
  c = ' ' ∨ c = '\t' ∨ c = '\n' ∨ c = '\x0d' ∨ c = '\x0b' ∨ c = '\x0c'

/-- Python `s.strip()`. -/
def pyStrip (s : String) : String :=
  String.mk (((s.data.dropWhile pyWs).reverse.dropWhile pyWs).reverse)

/-- Python `s[:n]` (prefix of at most `n` characters). -/
def pyTake (s : String) (n : Nat) : String :=
  String.mk (s.data.take n)

/-- Python `s.lower()` (ASCII case folding). -/
def pyLower (s : String) : String :=
  String.mk (s.data.map Char.toLower)

def startsWithAux : List Char → List Char → Bool
  | _, [] => true
  | [], _ :: _ => false
  | a :: as, b :: bs => a = b && startsWithAux as bs

/-- Python `s.startswith(pre)`. -/
def pyStartsWith (s pre : String) : Bool :=
  startsWithAux s.data pre.data

def splitCharAux (c : Char) : List Char → List Char → List String
  | [], acc => [String.mk acc.reverse]
  | x :: xs, acc =>
    if x = c then String.mk acc.reverse :: splitCharAux c xs []
    else splitCharAux c xs (x :: acc)

/-- Python `s.split(c)` for a one-character separator. -/
def pySplit (s : String) (c : Char) : List String :=
  splitCharAux c s.data []

/-- Python `sep.join(parts)`. -/
def pyJoin (sep : String) : List String → String
  | [] => ""
  | [x] => x
  | x :: y :: xs => x ++ sep ++ pyJoin sep (y :: xs)

def charListLt : List Char → List Char → Bool
  | [], [] => false
  | [], _ :: _ => true
  | _ :: _, [] => false
  | a :: as, b :: bs =>
    if a.toNat < b.toNat then true
    else if b.toNat < a.toNat then false
    else charListLt as bs

/-- Python `a <= b` on strings (lexicographic by code point). -/
def pyStrLe (a b : String) : Bool :=
  a = b || charListLt a.data b.data

/-! ## Calendar dates

`datetime.date` values are modelled as a year plus a zero-based ordinal day
of the year; `date` subtraction and comparison go through the absolute day
count `OrdDate.abs` (proleptic Gregorian, matching Python's calendar). -/

/-- Gregorian leap-year test, as used by `datetime.date`. -/
def isLeap (y : Nat) : Bool :=
  decide ((y % 4 = 0 ∧ y % 100 ≠ 0) ∨ y % 400 = 0)

def daysInYear (y : Nat) : Nat := if isLeap y then 366 else 365

/-- A calendar date: year and zero-based day of the year. -/
structure OrdDate where
  year : Nat
  doy : Nat
deriving DecidableEq, Repr

/-- Days from a fixed epoch to Jan 1 of year `y` (proleptic Gregorian). -/
def janFirstAbs (y : Nat) : Nat :=
  365 * (y - 1) + ((y - 1) / 4 - (y - 1) / 100) + (y - 1) / 400

/-- Absolute day number of a date; date subtraction and ordering in the
Python source are modelled through this count. -/
def OrdDate.abs (d : OrdDate) : Nat := janFirstAbs d.year + d.doy

def addDaysAux : Nat → Nat → Nat → OrdDate
  | 0, y, n => ⟨y, n⟩
  | fuel + 1, y, n =>
    if n < daysInYear y then ⟨y, n⟩
    else addDaysAux fuel (y + 1) (n - daysInYear y)

/-- Python `date(d.year, 1, 1) + timedelta(days = d.doy + k)`:
advance a date by `k` days, rolling over year ends. -/
def OrdDate.addDays (d : OrdDate) (k : Nat) : OrdDate :=
  addDaysAux (d.doy + k + 1) d.year (d.doy + k)

/-! ## Rendering dates as ISO strings (`date.isoformat()`) -/

def monthLengths (leap : Bool) : List Nat :=
  [31, if leap then 29 else 28, 31, 30, 31, 30, 31, 31, 30, 31, 30, 31]

def monthDayAux : List Nat → Nat → Nat → Nat × Nat
  | [], m, n => (m, n + 1)
  | len :: rest, m, n =>
    if n < len then (m, n + 1) else monthDayAux rest (m + 1) (n - len)

/-- One-based month and day of month from a zero-based ordinal day. -/
def monthDay (leap : Bool) (doy : Nat) : Nat × Nat :=
  monthDayAux (monthLengths leap) 1 doy

/-- Zero-pad a numeral to the given width. -/
def padNum (width n : Nat) : String :=
  let s := toString n
  String.mk (List.replicate (width - s.length) '0') ++ s

/-- Python `date.isoformat()`: `YYYY-MM-DD`. -/
def isoOfDate (d : OrdDate) : String :=
  let md := monthDay (isLeap d.year) d.doy
  padNum 4 d.year ++ "-" ++ padNum 2 md.1 ++ "-" ++ padNum 2 md.2

/-! ## Period bucketer (`server.py` lines 538-574)

The date-level cores return the `date` values computed by the source just
before their final `.isoformat()` calls; the primed string versions apply
`isoformat`, exactly as the source returns them. -/

/-- Body of `_current_5day_period` in `server.py`, before `.isoformat()`:
`(period_start, period_end, is_complete, days_remaining)` for a given
`today = date.today()`. -/
def currentPeriodDates (today : OrdDate) : OrdDate × OrdDate × Bool × Int :=
  let anchor : OrdDate := ⟨today.year, 0⟩
  let days_since_anchor := today.abs - anchor.abs
  let period_start_offset := days_since_anchor / 5 * 5
  let period_start := anchor.addDays period_start_offset
  let period_end := period_start.addDays 4
  let is_complete := decide (period_end.abs < today.abs)
  let days_remaining : Int :=
    if is_complete then 0 else max 0 ((period_end.abs : Int) - (today.abs : Int) + 1)
  (period_start, period_end, is_complete, days_remaining)

/-- `_current_5day_period` in `server.py`: the same data with the two dates
rendered by `isoformat()`. -/
def _current_5day_period (today : OrdDate) : String × String × Bool × Int :=
  let p := currentPeriodDates today
  (isoOfDate p.1, isoOfDate p.2.1, p.2.2.1, p.2.2.2)

/-- Body of `_last_completed_5day_period` in `server.py`, before
`.isoformat()`. -/
def lastCompletedPeriodDates (today : OrdDate) : OrdDate × OrdDate :=
  let anchor : OrdDate := ⟨today.year, 0⟩
  let days_since_anchor := today.abs - anchor.abs
  let current_period_start_offset := days_since_anchor / 5 * 5
  let last_period_start_offset : Int := (current_period_start_offset : Int) - 5
  if last_period_start_offset < 0 then
    let last_year := today.year - 1
    let days_in_last_year := janFirstAbs today.year - janFirstAbs last_year
    let lo := (days_in_last_year - 1) / 5 * 5
    let period_start := (⟨last_year, 0⟩ : OrdDate).addDays lo
    (period_start, period_start.addDays 4)
  else
    let period_start := anchor.addDays last_period_start_offset.toNat
    (period_start, period_start.addDays 4)

/-- `_last_completed_5day_period` in `server.py`. -/
def _last_completed_5day_period (today : OrdDate) : String × String :=
  let p := lastCompletedPeriodDates today
  (isoOfDate p.1, isoOfDate p.2)

/-- `current_period` exactly as stated by the spec (section 4.1): `anchor =
Jan 1 of today's year`, `offset_days = floor((today - anchor) / 5) * 5`,
`start = anchor + offset_days`, `end = start + 4 days`, `is_complete =
today > end`, `days_remaining = max(0, (end - today) + 1)` if not complete
else 0. -/
def currentPeriodSpec (today : OrdDate) : OrdDate × OrdDate × Bool × Int :=
  let anchor : OrdDate := ⟨today.year, 0⟩
  let offset_days := (today.abs - anchor.abs) / 5 * 5
  let start := anchor.addDays offset_days
  let e := start.addDays 4
  let is_complete := decide (e.abs < today.abs)
  let days_remaining : Int :=
    if is_complete then 0 else max 0 ((e.abs : Int) - (today.abs : Int) + 1)
  (start, e, is_complete, days_remaining)

/-! ## JSON values and `json.loads`

`pattern_analyzer.parse_situations_response` feeds a substring of the LLM
response to `json.loads`.  The model is a strict JSON parser over the
characters of the string; a parse failure is `none` (the caught
`JSONDecodeError`).  Python's permissive `NaN`/`Infinity` literals are
accepted as number lexemes. -/

inductive JVal where
  | null
  | bool (b : Bool)
  | num (lexeme : String)
  | str (s : String)
  | arr (items : List JVal)
  | obj (fields : List (String × JVal))

def skipJWs : List Char → List Char
  | [] => []
  | c :: cs => if c = ' ' ∨ c = '\t' ∨ c = '\n' ∨ c = '\x0d' then skipJWs cs else c :: cs

def hexVal (c : Char) : Option Nat :=
  if '0' ≤ c ∧ c ≤ '9' then some (c.toNat - 48)
  else if 'a' ≤ c ∧ c ≤ 'f' then some (c.toNat - 87)
  else if 'A' ≤ c ∧ c ≤ 'F' then some (c.toNat - 55)
  else none

def parseJStringAux : Nat → List Char → List Char → Option (String × List Char)
  | 0, _, _ => none
  | fuel + 1, cs, acc =>
    match cs with
    | [] => none
    | c :: rest =>
      if c = '"' then some (String.mk acc.reverse, rest)
      else if c = '\\' then
        match rest with
        | [] => none
        | e :: r2 =>
          if e = '"' then parseJStringAux fuel r2 ('"' :: acc)
          else if e = '\\' then parseJStringAux fuel r2 ('\\' :: acc)
          else if e = '/' then parseJStringAux fuel r2 ('/' :: acc)
          else if e = 'b' then parseJStringAux fuel r2 ('\x08' :: acc)
          else if e = 'f' then parseJStringAux fuel r2 ('\x0c' :: acc)
          else if e = 'n' then parseJStringAux fuel r2 ('\n' :: acc)
          else if e = 'r' then parseJStringAux fuel r2 ('\x0d' :: acc)
          else if e = 't' then parseJStringAux fuel r2 ('\t' :: acc)
          else if e = 'u' then
            match r2 with
            | h1 :: h2 :: h3 :: h4 :: r3 =>
              match hexVal h1, hexVal h2, hexVal h3, hexVal h4 with
              | some a, some b, some c3, some d =>
                let code := ((a * 16 + b) * 16 + c3) * 16 + d
                if 0xD800 ≤ code ∧ code < 0xDC00 then
                  match r3 with
                  | '\\' :: 'u' :: g1 :: g2 :: g3 :: g4 :: r4 =>
                    match hexVal g1, hexVal g2, hexVal g3, hexVal g4 with
                    | some a2, some b2, some c2, some d2 =>
                      let lo := ((a2 * 16 + b2) * 16 + c2) * 16 + d2
                      if 0xDC00 ≤ lo ∧ lo < 0xE000 then
                        parseJStringAux fuel r4
                          (Char.ofNat (0x10000 + (code - 0xD800) * 0x400 + (lo - 0xDC00)) :: acc)
                      else parseJStringAux fuel r3 (Char.ofNat code :: acc)
                    | _, _, _, _ => parseJStringAux fuel r3 (Char.ofNat code :: acc)
                  | _ => parseJStringAux fuel r3 (Char.ofNat code :: acc)
                else parseJStringAux fuel r3 (Char.ofNat code :: acc)
              | _, _, _, _ => none
            | _ => none
          else none
      else if c.toNat < 32 then none
      else parseJStringAux fuel rest (c :: acc)

def parseExpAux (lexsofar : List Char) (e : Char) (cs : List Char) :
    Option (String × List Char) :=
  let sgn := match cs with
    | '+' :: _ => ['+']
    | '-' :: _ => ['-']
    | _ => []
  let cs2 := cs.drop sgn.length
  let ds := cs2.takeWhile Char.isDigit
  if ds = [] then none
  else some (String.mk (lexsofar ++ e :: (sgn ++ ds)), cs2.dropWhile Char.isDigit)

def parseExponent (lexsofar : List Char) (cs : List Char) :
    Option (String × List Char) :=
  match cs with
  | 'e' :: r => parseExpAux lexsofar 'e' r
  | 'E' :: r => parseExpAux lexsofar 'E' r
  | _ => some (String.mk lexsofar, cs)

def parseNumber (cs : List Char) : Option (String × List Char) :=
  let sign : List Char := match cs with
    | '-' :: _ => ['-']
    | _ => []
  let cs1 := cs.drop sign.length
  let intPart := cs1.takeWhile Char.isDigit
  let rest1 := cs1.dropWhile Char.isDigit
  if intPart = [] then none
  else if 1 < intPart.length ∧ intPart.headD '0' = '0' then none
  else
    match rest1 with
    | '.' :: r =>
      let f := r.takeWhile Char.isDigit
      if f = [] then none
      else parseExponent (sign ++ intPart ++ '.' :: f) (r.dropWhile Char.isDigit)
    | _ => parseExponent (sign ++ intPart) rest1

inductive PMode where
  | value
  | arrItems (acc : List JVal)
  | objItems (acc : List (String × JVal))

def expectLit : List Char → List Char → Option (List Char)
  | cs, [] => some cs
  | c :: cs, l :: ls => if c = l then expectLit cs ls else none
  | [], _ :: _ => none

/-- One recursive-descent JSON parser; `PMode.value` parses a single value,
the other modes parse the items of a partially consumed array or object.
Fuel bounds the recursion depth; `jsonParse` supplies enough for any input. -/
def parseJ : Nat → PMode → List Char → Option (JVal × List Char)
  | 0, _, _ => none
  | fuel + 1, PMode.value, cs =>
    match skipJWs cs with
    | [] => none
    | c :: rest =>
      if c = '\x7b' then
        match skipJWs rest with
        | c2 :: rest2 =>
          if c2 = '\x7d' then some (JVal.obj [], rest2)
          else parseJ fuel (PMode.objItems []) (c2 :: rest2)
        | [] => none
      else if c = '[' then
        match skipJWs rest with
        | c2 :: rest2 =>
          if c2 = ']' then some (JVal.arr [], rest2)
          else parseJ fuel (PMode.arrItems []) (c2 :: rest2)
        | [] => none
      else if c = '"' then
        (parseJStringAux (rest.length + 1) rest []).map (fun p => (JVal.str p.1, p.2))
      else if c = 't' then
        (expectLit rest ['r', 'u', 'e']).map (fun r => (JVal.bool true, r))
      else if c = 'f' then
        (expectLit rest ['a', 'l', 's', 'e']).map (fun r => (JVal.bool false, r))
      else if c = 'n' then
        (expectLit rest ['u', 'l', 'l']).map (fun r => (JVal.null, r))
      else if c = 'N' then
        (expectLit rest ['a', 'N']).map (fun r => (JVal.num ("NaN"), r))
      else if c = 'I' then
        (expectLit rest ['n', 'f', 'i', 'n', 'i', 't', 'y']).map
          (fun r => (JVal.num ("Infinity"), r))
      else if c = '-' ∧ rest.headD ' ' = 'I' then
        (expectLit (rest.drop 1) ['n', 'f', 'i', 'n', 'i', 't', 'y']).map
          (fun r => (JVal.num ("-Infinity"), r))
      else
        (parseNumber (c :: rest)).map (fun p => (JVal.num p.1, p.2))
  | fuel + 1, PMode.arrItems acc, cs =>
    match parseJ fuel PMode.value cs with
    | none => none
    | some (v, rest) =>
      match skipJWs rest with
      | ',' :: r2 => parseJ fuel (PMode.arrItems (acc ++ [v])) r2
      | ']' :: r2 => some (JVal.arr (acc ++ [v]), r2)
      | _ => none
  | fuel + 1, PMode.objItems acc, cs =>
    match skipJWs cs with
    | '"' :: rest =>
      match parseJStringAux (rest.length + 1) rest [] with
      | none => none
      | some (k, r1) =>
        match skipJWs r1 with
        | ':' :: r2 =>
          match parseJ fuel PMode.value r2 with
          | none => none
          | some (v, r3) =>
            match skipJWs r3 with
            | ',' :: r4 => parseJ fuel (PMode.objItems (acc ++ [(k, v)])) r4
            | c :: r4 =>
              if c = '\x7d' then some (JVal.obj (acc ++ [(k, v)]), r4) else none
            | [] => none
        | _ => none
    | _ => none

/-- Python `json.loads`: parse one JSON document, allowing surrounding
whitespace, rejecting trailing garbage.  `none` models `JSONDecodeError`. -/
def jsonParse (s : String) : Option JVal :=
  match parseJ (2 * s.length + 4) PMode.value s.data with
  | some (v, rest) => if skipJWs rest = [] then some v else none
  | none => none

/-- Python `dict.get` on a parsed JSON object (later duplicate keys win,
as in `json.loads`). -/
def jGet (fs : List (String × JVal)) (k : String) : Option JVal :=
  fs.foldl (fun acc p => if p.1 = k then some p.2 else acc) none

/-- Whether the mantissa of a JSON number lexeme is zero (Python numeric
falsiness). -/
def isZeroNum (lex : String) : Bool :=
  let mantissa := lex.data.takeWhile (fun c => c ≠ 'e' ∧ c ≠ 'E')
  mantissa.all (fun c => c = '0' ∨ c = '-' ∨ c = '.') && mantissa.any (fun c => c = '0')

/-- Python truthiness of a decoded JSON value. -/
def jTruthy : JVal → Bool
  | JVal.null => false
  | JVal.bool b => b
  | JVal.num lex => !(isZeroNum lex)
  | JVal.str s => s ≠ ""
  | JVal.arr xs => !xs.isEmpty
  | JVal.obj fs => !fs.isEmpty

def pyReprAux : Nat → JVal → String
  | _, JVal.null => "None"
  | _, JVal.bool true => "True"
  | _, JVal.bool false => "False"
  | _, JVal.num lex => if lex = "-0" then "0" else lex
  | _, JVal.str s => "\x27" ++ s ++ "\x27"
  | 0, JVal.arr _ => "[...]"
  | 0, JVal.obj _ => "\x7b...\x7d"
  | fuel + 1, JVal.arr xs => "[" ++ pyJoin ", " (xs.map (pyReprAux fuel)) ++ "]"
  | fuel + 1, JVal.obj fs =>
    "\x7b" ++
      pyJoin ", " (fs.map (fun p => "\x27" ++ p.1 ++ "\x27: " ++ pyReprAux fuel p.2)) ++
      "\x7d"

/-- Python `str()` of a decoded JSON value (containers render as `repr`,
approximated without re-escaping; the fields in all claims are strings,
where this is exact). -/
def pyStr : JVal → String
  | JVal.str s => s
  | v => pyReprAux 1000 v

/-! ## Situations (`pattern_analyzer.py`) -/

structure Situation where
  situation : String
  emotion : String
  behavior : String
  self_judgment : String
deriving DecidableEq, Repr

/-- The per-item body of the validation loop inside
`parse_situations_response`: keep an item iff it is a dict with a truthy
`situation`, coerce and cap the four fields (`item.get("emotion",
item.get("feeling", ""))` and the analogous `self_doubt` fallback are the
nested matches). -/
def situationOfItem (item : JVal) : Option Situation :=
  match item with
  | JVal.obj fs =>
    if ((jGet fs ("situation")).map jTruthy).getD false then
      some
        { situation := pyTake (pyStr ((jGet fs ("situation")).getD (JVal.str ""))) 500
          emotion :=
            pyTake
              (match jGet fs ("emotion") with
               | some v => pyStr v
               | none =>
                 match jGet fs ("feeling") with
                 | some v => pyStr v
                 | none => "") 200
          behavior :=
            pyTake
              (match jGet fs ("behavior") with
               | some v => pyStr v
               | none => "") 300
          self_judgment :=
            pyTake
              (match jGet fs ("self_judgment") with
               | some v => pyStr v
               | none =>
                 match jGet fs ("self_doubt") with
                 | some v => pyStr v
                 | none => "") 200 }
    else none
  | _ => none

/-- The validation loop inside `parse_situations_response`. -/
def validateSituations (data : List JVal) : List Situation :=
  data.filterMap situationOfItem

def firstIdxOfAux (c : Char) : List Char → Nat → Option Nat
  | [], _ => none
  | x :: xs, i => if x = c then some i else firstIdxOfAux c xs (i + 1)

/-- Python `s.index(c)` as an `Option` (the raised `ValueError` is `none`). -/
def firstIdxOf (l : List Char) (c : Char) : Option Nat :=
  firstIdxOfAux c l 0

/-- Python `s.rindex(c)` as an `Option`. -/
def lastIdxOf (l : List Char) (c : Char) : Option Nat :=
  (firstIdxOf l.reverse c).map (fun i => l.length - 1 - i)

/-- `parse_situations_response` in `pattern_analyzer.py`. -/
def parse_situations_response (raw_response : String) : List Situation :=
  if raw_response = "" then []
  else
    let text := pyStrip raw_response
    let text :=
      if pyStartsWith text ("```") then
        let lines := pySplit text '\n'
        pyStrip (pyJoin ("\n")
          (if pyStrip (lines.getLast?.getD "") = ("```") then (lines.drop 1).dropLast
           else lines.drop 1))
      else text
    match firstIdxOf text.data '[', lastIdxOf text.data ']' with
    | some s, some e =>
      let text2 := String.mk ((text.data.drop s).take (e + 1 - s))
      match jsonParse text2 with
      | some (JVal.arr items) => validateSituations items
      | some _ => []
      | none => []
    | some _, none => []
    | none, _ => []

/-! ## Prompt construction (`pattern_analyzer.py`) -/

def SITUATION_EXTRACTION_SYSTEM : String :=
  "You extract discrete situations from journal entries.\n\nFor each situation mentioned, identify:\n- What happened (the external event)\n- How they felt (emotions, not just \"bad\" - be specific)\n- What they did or didn\x27t do (behavior/response)\n- Any self-judgment or doubt about their reaction\n\nReturn ONLY a valid JSON array. No explanation, no markdown.\n\nExample format:\n[\n  \x7b\n    \"situation\": \"Boss dismissed my proposal in meeting\",\n    \"emotion\": \"frustrated, then doubting myself\",\n    \"behavior\": \"stayed quiet, didn\x27t push back\",\n    \"self_judgment\": \"wondered if I\x27m overreacting\"\n  \x7d\n]"

def extract_situations_prompt (reflections_text : String) : String :=
  "Extract discrete situations from these journal entries.\n\nFor each situation, identify what happened, how they felt, what they did, and any self-doubt.\n\nReturn ONLY a JSON array. No other text.\n\nJournal entries:\n"
    ++ reflections_text

def PATTERN_IDENTIFICATION_SYSTEM : String :=
  "You identify deep emotional/behavioral patterns from journal situations.\n\nYour job is to find the WHY underneath the WHAT. Not just \"they wrote about work\" but the emotional logic connecting different situations.\n\nLook for:\n- What emotional need keeps getting triggered?\n- What belief about themselves keeps surfacing?\n- What conflict or tension remains unresolved?\n- What question are they asking from different angles?\n\nBe specific and insightful. State the pattern in 2-3 clear sentences.\nConnect dots between seemingly unrelated situations.\n\nTone: Observational, not diagnostic. No labels, no fixing."

def hexDigit (n : Nat) : Char :=
  if n < 10 then Char.ofNat (48 + n) else Char.ofNat (87 + n)

/-- Character escaping of Python `json.dumps` (`ensure_ascii` escaping of
non-ASCII characters is approximated by the identity). -/
def jsonEscapeChar (c : Char) : String :=
  if c = '"' then "\\\""
  else if c = '\\' then "\\\\"
  else if c = '\n' then "\\n"
  else if c = '\t' then "\\t"
  else if c = '\x0d' then "\\r"
  else if c = '\x08' then "\\b"
  else if c = '\x0c' then "\\f"
  else if c.toNat < 32 then "\\u00" ++ String.mk [hexDigit (c.toNat / 16), hexDigit (c.toNat % 16)]
  else String.singleton c

def jsonEscape (s : String) : String :=
  String.join (s.data.map jsonEscapeChar)

/-- Python `json.dumps(situations, indent=2)` for a list of situation dicts
(keys in insertion order). -/
def dumpSituation (s : Situation) : String :=
  "  \x7b\n    \"situation\": \"" ++ jsonEscape s.situation
    ++ "\",\n    \"emotion\": \"" ++ jsonEscape s.emotion
    ++ "\",\n    \"behavior\": \"" ++ jsonEscape s.behavior
    ++ "\",\n    \"self_judgment\": \"" ++ jsonEscape s.self_judgment
    ++ "\"\n  \x7d"

def dumpSituations (l : List Situation) : String :=
  if l.isEmpty then "[]"
  else "[\n" ++ pyJoin ",\n" (l.map dumpSituation) ++ "\n]"

def identify_pattern_prompt (situations : List Situation) : String :=
  let situations_text := dumpSituations situations
  "Look across these situations from someone\x27s journal.\n\nFind the deeper pattern. Not what they wrote about, but:\n- What emotional need keeps getting triggered?\n- What belief about themselves keeps surfacing?\n- What tension or conflict remains unresolved?\n\nState the core pattern in 2-3 clear sentences.\nBe specific about the emotional logic, not just themes.\n\nSituations:\n"
    ++ situations_text ++ "\n\nCore pattern:"

def LETTER_GENERATION_SYSTEM : String :=
  "You write weekly insight letters for someone who journals to understand themselves better.\n\nRules:\n- EXACTLY 100-150 words\n- Second-person (\"you\"), observational, gentle\n- NO salutation (no \"Dear\", no greeting)\n- NO sign-off (no signature)\n- Start directly with content\n\nStructure:\n1. Open with what they kept circling back to\n2. Give 2-3 specific examples from their week\n3. State the underlying pattern/tension clearly\n4. End with what remains unresolved (NO ADVICE)\n\nThe letter should feel like: \"Holy shit. That\x27s exactly it.\"\nNot: \"Yeah, I know. That\x27s what I wrote.\"\n\nConnect the dots. Show them the pattern they can\x27t see."

def generate_letter_prompt (core_pattern : String) (situations : List Situation)
    (reflections_summary : String) : String :=
  let key_situations := situations.take 3
  let situations_text := dumpSituations key_situations
  "Write a weekly insight letter (100-150 words exactly).\n\n1. Open with what they kept circling back to\n2. Name 2-3 specific examples from their week\n3. State the underlying pattern clearly\n4. End with what tension remains unresolved\n\nNO greeting. Start directly. NO advice.\n\nCore pattern identified:\n"
    ++ core_pattern ++ "\n\nKey situations from their week:\n" ++ situations_text
    ++ "\n\nFull reflections for context:\n" ++ pyTake reflections_summary 3000
    ++ "\n\nWrite the letter now:"

/-! ## Entries and the pipeline helpers -/

/-- One stored reflection, as consumed by the pipeline (`dict.get` of an
absent or null field is `none`). -/
structure Entry where
  raw_text : Option String
  mirror_response : Option String
  mood_word : Option String
  created_at : Option String
deriving DecidableEq, Repr

/-- `_build_reflections_text` in `pattern_analyzer.py`. -/
def _build_reflections_text (reflections : List Entry) : String :=
  let parts := (List.enumFrom 1 (reflections.take 10)).map (fun p =>
    let r := p.2
    let raw := pyStrip (r.raw_text.getD "")
    let mirror := pyStrip (r.mirror_response.getD "")
    let mood := pyStrip (r.mood_word.getD "")
    let created := pyTake (r.created_at.getD "") 10
    let entry := "--- Entry " ++ toString p.1
    let entry := if created ≠ "" then entry ++ " (" ++ created ++ ")" else entry
    let entry := entry ++ " ---\n"
    let entry := if raw ≠ "" then entry ++ "Their thought: " ++ pyTake raw 600 ++ "\n" else entry
    let entry := if mirror ≠ "" then entry ++ "Mirror response: " ++ pyTake mirror 400 ++ "\n" else entry
    let entry := if mood ≠ "" then entry ++ "Mood: " ++ mood ++ "\n" else entry
    entry)
  pyJoin "\n\n" parts

def startsGreeting (s : String) : Bool :=
  pyStartsWith s ("dear") || pyStartsWith s ("hi ") || pyStartsWith s ("hello")
    || pyStartsWith s ("hey")

/-- `_clean_letter` in `pattern_analyzer.py`. -/
def _clean_letter (letter : String) : String :=
  if letter = "" then ""
  else
    let letter := pyStrip letter
    let letter :=
      if pyStartsWith letter ("```") then
        let lines := pySplit letter '\n'
        pyStrip (pyJoin ("\n")
          (if pyStrip (lines.getLast?.getD "") = ("```") then (lines.drop 1).dropLast
           else lines.drop 1))
      else letter
    let lines := pySplit letter '\n'
    match lines with
    | [] => letter
    | l0 :: restLines =>
      if startsGreeting (pyLower (pyStrip l0)) then pyStrip (pyJoin ("\n") restLines)
      else letter

/-- `_gentle_insufficient_data_message` in `pattern_analyzer.py`. -/
def _gentle_insufficient_data_message (count : Nat) : String :=
  if count = 0 then
    "You haven\x27t reflected yet this period. When you do, I\x27ll be here — noticing what shows up."
  else if count = 1 then
    "You reflected once recently. A few more entries will help me see what\x27s underneath."
  else
    "You\x27ve started to show up. Keep reflecting — patterns emerge with a bit more."

/-! ## The shallow one-shot generator (`ollama_client.py`) -/

/-- The Ollama `_chat` transport: an injected pure function; `Except.error`
models a raised network/HTTP exception. -/
abbrev ChatFn := String → String → Except Unit String

/-- A call to the injected `llm_chat_fn` gateway of the deep pipeline:
`Except.error` models a raised exception, `none` a returned `None`. -/
abbrev LLMFn := String → String → Except Unit (Option String)

def INSIGHT_LETTER_FALLBACK : String :=
  "These past few days you showed up to reflect. That\x27s worth noticing."

def insightLetterSystem : String :=
  "You write a short, warm reflection TO someone about their past few days of thoughts. Like a thoughtful friend who\x27s been paying attention.\n\nSTRICT FORMAT:\n- EXACTLY 100-150 words (count them)\n- NO greeting (no \"Dear,\" \"Hi,\" names)\n- NO closing (no \"Sincerely,\" signature)\n- Start with a direct observation\n- 2-3 short paragraphs\n- No repetition\n\nVOICE:\n- \"You\" throughout—speaking TO them\n- Observational, not analytical\n- Friend who notices things, not therapist\n- Simple, grounded language\n- Warm but honest\n\nCONTENT:\n- What they\x27ve been circling\n- Threads between their entries\n- What you notice about how they\x27re thinking\n- Moments that stand out\n\nFORBIDDEN:\n- Advice or suggestions\n- Questions\n- Stats/counts/numbers\n- The word \"I\"\n- Any repetition\n- Psychology language\n- Motivation speak"

def insightLetterPromptEmpty : String :=
  "They didn\x27t reflect much in the past 5 days.\n\nWrite exactly 100-150 words. Be warm and honest.\n\nAcknowledge without guilt that sometimes there isn\x27t space to pause. Notice that they\x27re here now, which means something. Gently wonder (without asking questions) what these past few days have felt like.\n\nNo greeting, no closing. Start with a warm, direct observation. Use \"you.\"\n\nNot: \"Dear friend, it\x27s okay that...\"\nYes: \"These past few days didn\x27t leave much room for pausing...\"\n\nNo advice. No productivity guilt. No \"you\x27ve got this.\" Just acknowledgment and gentle presence.\n\nCount your words. 100-150 only."

def insightLetterPrompt (reflections_summary : String) : String :=
  "Their reflections from the past 5 days:\n\n" ++ pyTake reflections_summary 2500
    ++ "\n\nWrite EXACTLY 100-150 words reflecting what you noticed across these days.\n\nWhat to look for:\n- Recurring themes (what keeps showing up?)\n- Shifts in tone or time orientation\n- What they\x27re wrestling with vs. what they\x27re avoiding\n- Tensions between entries\n- What seems to matter most, even when unspoken\n\nStructure (weave naturally, don\x27t label):\n- Opening: What stands out across these days\n- Middle: Specific observations from their entries\n- Closing: Where they seem to be now\n\nWrite TO them. Make it specific to THEIR entries, not generic wisdom. No salutation, no sign-off. Start directly with what you noticed.\n\nCount your words. 100-150 only."

/-- `get_insight_letter` in `ollama_client.py`, with the `_chat` transport
injected. -/
def get_insight_letter (chat : ChatFn) (reflections_summary : String) : String :=
  let prompt :=
    if pyStrip reflections_summary = "" then insightLetterPromptEmpty
    else insightLetterPrompt reflections_summary
  match chat prompt insightLetterSystem with
  | Except.error _ => INSIGHT_LETTER_FALLBACK
  | Except.ok raw =>
    let out := pyStrip raw
    let out :=
      match pySplit out '\n' with
      | [] => out
      | l0 :: restL =>
        if startsGreeting (pyLower (pyStrip l0)) then pyStrip (pyJoin ("\n") restL)
        else out
    if out ≠ "" ∧ 200 < out.length ∧ out.length < 1200 then out
    else INSIGHT_LETTER_FALLBACK

/-- `_build_reflections_summary_simple` in `ollama_client.py` (the summary
builder used by the shallow fallback). -/
def _build_reflections_summary_simple (reflections : List Entry) : String :=
  let parts := (reflections.take 20).flatMap (fun r =>
    let raw := pyStrip (r.raw_text.getD "")
    let mirror := pyStrip (r.mirror_response.getD "")
    let mood := pyStrip (r.mood_word.getD "")
    (if raw ≠ "" then ["Thought: " ++ pyTake raw 400] else [])
      ++ (if mirror ≠ "" then ["Mirror: " ++ pyTake mirror 400] else [])
      ++ (if mood ≠ "" then ["Mood: " ++ mood] else []))
  if parts.isEmpty then "" else pyJoin "\n\n" parts

/-! ## The degradation controller (`analyze_patterns_deep_sync`) -/

/-- The dict returned by the pipeline. -/
structure AnalysisResult where
  letter : String
  core_pattern : Option String
  situations : List Situation
  analysis_depth : String
deriving DecidableEq, Repr

/-- `_shallow_fallback_sync` in `pattern_analyzer.py`: the one-shot summary
path.  In the model its Ollama transport `chat` is injected; `get_insight_letter`
catches all its own gateway failures, so the surrounding `try` never fires. -/
def _shallow_fallback_sync (chat : ChatFn) (reflections : List Entry) : AnalysisResult :=
  let summary := _build_reflections_summary_simple reflections
  let letter := get_insight_letter chat summary
  { letter := letter
    core_pattern := none
    situations := []
    analysis_depth := "shallow" }

/-- `analyze_patterns_deep_sync` in `pattern_analyzer.py`.  `llm_chat_fn` is
the injected three-stage gateway; `chat` is the Ollama transport used by the
shallow fallback.  Each `match … | Except.error` is one of the source's
stage-boundary `try/except` blocks. -/
def analyze_patterns_deep_sync (llm_chat_fn : LLMFn) (chat : ChatFn)
    (reflections : List Entry) (min_reflections : Nat) : AnalysisResult :=
  if reflections.length < min_reflections then
    { letter := _gentle_insufficient_data_message reflections.length
      core_pattern := none
      situations := []
      analysis_depth := "insufficient" }
  else
    let reflections_text := _build_reflections_text reflections
    match llm_chat_fn (extract_situations_prompt reflections_text) SITUATION_EXTRACTION_SYSTEM with
    | Except.error _ => _shallow_fallback_sync chat reflections
    | Except.ok situations_raw =>
      let situations := parse_situations_response (situations_raw.getD "")
      if situations.length < 2 then _shallow_fallback_sync chat reflections
      else
        match llm_chat_fn (identify_pattern_prompt situations) PATTERN_IDENTIFICATION_SYSTEM with
        | Except.error _ => _shallow_fallback_sync chat reflections
        | Except.ok core_raw =>
          let core_pattern := pyStrip (core_raw.getD "")
          if core_pattern = "" ∨ core_pattern.length < 50 then
            _shallow_fallback_sync chat reflections
          else
            let letter :=
              match llm_chat_fn (generate_letter_prompt core_pattern situations reflections_text)
                  LETTER_GENERATION_SYSTEM with
              | Except.error _ =>
                if core_pattern ≠ "" then core_pattern
                else _gentle_insufficient_data_message reflections.length
              | Except.ok letter_raw =>
                let letter := _clean_letter (letter_raw.getD "")
                if letter = "" ∨ letter.length < 100 then core_pattern else letter
            { letter := letter
              core_pattern := some core_pattern
              situations := situations
              analysis_depth := "deep" }

/-! ## Insight store boundary (`supabase_client.py`)

The Supabase client is an injected collaborator: `none` models a missing
client (`_get_client()` returned `None`), and each table operation may
raise (`Except.error`), which the source catches and converts to
`None`/`False`. -/

/-- One `weekly_insights` row as selected (`id, content, created_at`). -/
structure InsightRow where
  id : Option String
  content : Option String
  created_at : Option String
deriving DecidableEq, Repr

/-- The `weekly_insights` table operations of the Supabase client. -/
structure WeeklyInsightsTable where
  select : String → String → Except Unit (List InsightRow)
  insert : String → String → String → Except Unit (List InsightRow)
  del : String → String → Except Unit Unit

/-- `_validate_week_start` in `supabase_client.py`: the regex
`^\d\x7b4\x7d-\d\x7b2\x7d-\d\x7b2\x7d$` as an explicit character pattern. -/
def _validate_week_start (week_start : String) : Bool :=
  match week_start.data with
  | [a, b, c, d, e, f, g, h, i, j] =>
    a.isDigit && b.isDigit && c.isDigit && d.isDigit && e = '-' && f.isDigit && g.isDigit
      && h = '-' && i.isDigit && j.isDigit
  | _ => false

/-- `get_weekly_insight_by_week` in `supabase_client.py`. -/
def get_weekly_insight_by_week (client : Option WeeklyInsightsTable)
    (user_id week_start : String) : Option InsightRow :=
  if user_id = "" ∨ ¬ _validate_week_start week_start then none
  else
    match client with
    | none => none
    | some c =>
      match c.select (pyTake (pyStrip user_id) 128) week_start with
      | Except.error _ => none
      | Except.ok rows => rows.head?

/-- `insert_weekly_insight` in `supabase_client.py`. -/
def insert_weekly_insight (client : Option WeeklyInsightsTable)
    (user_id week_start content : String) : Option String :=
  if user_id = "" ∨ content = "" ∨ ¬ _validate_week_start week_start then none
  else
    match client with
    | none => none
    | some c =>
      match c.insert (pyTake (pyStrip user_id) 128) week_start (pyTake (pyStrip content) 10000) with
      | Except.error _ => none
      | Except.ok rows =>
        match rows.head? with
        | some r => r.id
        | none => none

/-- `delete_weekly_insight` in `supabase_client.py`. -/
def delete_weekly_insight (client : Option WeeklyInsightsTable)
    (user_id week_start : String) : Bool :=
  if user_id = "" ∨ ¬ _validate_week_start week_start then false
  else
    match client with
    | none => false
    | some c =>
      match c.del (pyTake (pyStrip user_id) 128) week_start with
      | Except.error _ => false
      | Except.ok _ => true

/-! ## The letter endpoint (`server.py` `insights_letter`)

Collaborators are injected: `store_get` is `get_weekly_insight_by_week`
applied to its client, `list_since` is `list_saved_reflections_since`,
`insert` is `insert_weekly_insight` (its result is discarded and its
exceptions swallowed by the source's `try/except: pass`, so an injected
pure function is faithful), and `now_minus_30_iso` stands for
`(datetime.now(timezone.utc) - timedelta(days=30)).isoformat()`. -/

/-- The JSON body returned by the endpoint; keys absent from a given return
statement in the source are `none` here. -/
structure LetterResponse where
  content : Option String
  period_start : String
  period_end : String
  reflection_count : Option Nat
  too_early : Bool
  days_remaining : Option Int
  message : Option String
  core_pattern : Option String
  situations : List Situation
  analysis_depth : Option String
deriving DecidableEq, Repr

/-- The generation tail of `insights_letter`: run the deep pipeline over the
period's reflections, best-effort insert, and return the generated body. -/
def insightsLetterGenerate (insert : String → String → String → Option String)
    (llm : LLMFn) (chat : ChatFn) (uid last_period_start last_period_end : String)
    (period_reflections : List Entry) : LetterResponse :=
  let analysis_result := analyze_patterns_deep_sync llm chat period_reflections 3
  let content := analysis_result.letter
  let _ := insert uid last_period_start content
  { content := some content
    period_start := last_period_start
    period_end := last_period_end
    reflection_count := some period_reflections.length
    too_early := false
    days_remaining := none
    message := none
    core_pattern := analysis_result.core_pattern
    situations := if analysis_result.situations.isEmpty then [] else analysis_result.situations.take 3
    analysis_depth := some analysis_result.analysis_depth }

/-- The cache-hit body returned for a stored non-empty letter. -/
def cachedLetterResponse (row : InsightRow) (last_period_start last_period_end : String) :
    LetterResponse :=
  { content := some (pyStrip (row.content.getD ""))
    period_start := last_period_start
    period_end := last_period_end
    reflection_count := none
    too_early := false
    days_remaining := none
    message := none
    core_pattern := none
    situations := []
    analysis_depth := none }

/-- The body of `insights_letter` after the first cache lookup missed:
select the period's reflections, answer `too_early` for brand-new users,
re-check the cache (race guard), then generate. -/
def insightsLetterRest (store_get : String → String → Option InsightRow)
    (list_since : String → String → List Entry)
    (insert : String → String → String → Option String)
    (llm : LLMFn) (chat : ChatFn)
    (cur : String × String × Bool × Int)
    (last_period_start last_period_end uid now_minus_30_iso : String) : LetterResponse :=
  let since_iso := last_period_start ++ "T00:00:00+00:00"
  let reflections := list_since uid since_iso
  let period_reflections :=
    reflections.filter (fun r => pyStrLe (pyTake (r.created_at.getD "") 10) last_period_end)
  let all_reflections := list_since uid now_minus_30_iso
  if all_reflections.isEmpty then
    { content := none
      period_start := cur.1
      period_end := cur.2.1
      reflection_count := some 0
      too_early := true
      days_remaining := some cur.2.2.2
      message := some "Your first letter will be ready after you complete a 5-day reflection period."
      core_pattern := none
      situations := []
      analysis_depth := none }
  else
    match store_get uid last_period_start with
    | some row2 =>
      if pyStrip (row2.content.getD "") ≠ "" then
        cachedLetterResponse row2 last_period_start last_period_end
      else
        insightsLetterGenerate insert llm chat uid last_period_start last_period_end
          period_reflections
    | none =>
      insightsLetterGenerate insert llm chat uid last_period_start last_period_end
        period_reflections

/-- `insights_letter` in `server.py` (the `GET /api/insights/letter`
handler), with `date.today()` injected as `today`. -/
def insights_letter (store_get : String → String → Option InsightRow)
    (list_since : String → String → List Entry)
    (insert : String → String → String → Option String)
    (llm : LLMFn) (chat : ChatFn)
    (today : OrdDate) (now_minus_30_iso : String) (user_id : String) : LetterResponse :=
  let uid := pyTake user_id 128
  let cur := _current_5day_period today
  let last := _last_completed_5day_period today
  let last_period_start := last.1
  let last_period_end := last.2
  let existing_last := store_get uid last_period_start
  match existing_last with
  | some row =>
    if pyStrip (row.content.getD "") ≠ "" then
      cachedLetterResponse row last_period_start last_period_end
    else
      insightsLetterRest store_get list_since insert llm chat cur last_period_start
        last_period_end uid now_minus_30_iso
  | none =>
    insightsLetterRest store_get list_since insert llm chat cur last_period_start
      last_period_end uid now_minus_30_iso

/-! ## Claim-statement mirrors and concrete test fixtures -/

/-- The per-item validation rule as the amended claim C6 states it: an item
is kept iff it is a record whose `situation` value is truthy; each kept
field is stringified and capped (situation 500, emotion 200, behavior 300,
self_judgment 200); a missing `emotion` falls back to the `feeling` field
and a missing `self_judgment` to `self_doubt`, any other missing field
defaults to the empty string; unrecognized fields are dropped. -/
def situationOfItemSpec (item : JVal) : Option Situation :=
  match item with
  | JVal.obj fs =>
    match jGet fs ("situation") with
    | some v =>
      if jTruthy v then
        some
          { situation := pyTake (pyStr v) 500
            emotion :=
              pyTake (pyStr ((jGet fs ("emotion")).getD ((jGet fs ("feeling")).getD (JVal.str "")))) 200
            behavior := pyTake (pyStr ((jGet fs ("behavior")).getD (JVal.str ""))) 300
            self_judgment :=
              pyTake
                (pyStr ((jGet fs ("self_judgment")).getD ((jGet fs ("self_doubt")).getD (JVal.str ""))))
                200 }
      else none
    | none => none
  | _ => none

/-- A stage-1 gateway reply whose JSON parses to two situations. -/
def wExtractorJSON : String :=
  "[\x7b\"situation\":\"a\"\x7d,\x7b\"situation\":\"b\"\x7d]"

/-- A 59-character core pattern (no surrounding whitespace). -/
def wPattern : String :=
  "You keep treating rest as a reward you have not earned yet."

/-- A stubbed gateway keyed on the stage system prompts: two situations from
stage 1, a ≥50-character pattern from stage 2, a too-short letter from
stage 3. -/
def wLLM : LLMFn := fun _ sys =>
  if sys = SITUATION_EXTRACTION_SYSTEM then Except.ok (some wExtractorJSON)
  else if sys = PATTERN_IDENTIFICATION_SYSTEM then Except.ok (some wPattern)
  else Except.ok (some ("x"))

/-- A gateway that raises on every call. -/
def wErrLLM : LLMFn := fun _ _ => Except.error ()

/-- An Ollama transport that raises on every call. -/
def wErrChat : ChatFn := fun _ _ => Except.error ()

/-- Three concrete reflections. -/
def wEntries : List Entry :=
  [⟨some ("a"), none, none, none⟩, ⟨some ("b"), none, none, none⟩,
    ⟨some ("c"), none, none, none⟩]

/-- A stored insight row with non-empty content. -/
def wRow : InsightRow := ⟨some ("id1"), some ("A letter about your week."), none⟩

/-- A store holding `wRow` for user `alice` and period `2025-01-16` (the
last completed period seen from `2025-01-21`). -/
def wStore : String → String → Option InsightRow := fun u w =>
  if u = ("alice") ∧ w = ("2025-01-16") then some wRow else none

/-! ## Date lemmas -/

theorem daysInYear_ge (y : Nat) : 365 ≤ daysInYear y := by
  unfold daysInYear; split <;> omega

theorem janFirstAbs_succ (y : Nat) (hy : 1 ≤ y) :
    janFirstAbs (y + 1) = janFirstAbs y + daysInYear y := by
  obtain ⟨n, rfl⟩ : ∃ n, y = n + 1 := ⟨y - 1, by omega⟩
  have e4 : (n + 1) / 4 = n / 4 + if 4 ∣ (n + 1) then 1 else 0 := Nat.succ_div n 4
  have e100 : (n + 1) / 100 = n / 100 + if 100 ∣ (n + 1) then 1 else 0 := Nat.succ_div n 100
  have e400 : (n + 1) / 400 = n / 400 + if 400 ∣ (n + 1) then 1 else 0 := Nat.succ_div n 400
  have hle : n / 100 ≤ n / 4 := Nat.div_le_div_left (by norm_num) (by norm_num)
  simp only [janFirstAbs, daysInYear, isLeap, Nat.add_sub_cancel, decide_eq_true_eq]
  rw [e4, e100, e400]
  have d4 : 4 ∣ (n + 1) ↔ (n + 1) % 4 = 0 := Nat.dvd_iff_mod_eq_zero
  have d100 : 100 ∣ (n + 1) ↔ (n + 1) % 100 = 0 := Nat.dvd_iff_mod_eq_zero
  have d400 : 400 ∣ (n + 1) ↔ (n + 1) % 400 = 0 := Nat.dvd_iff_mod_eq_zero
  split_ifs with h1 h2 h3 h4 h5 h6 h7 <;>
    simp only [d4, d100, d400] at * <;> omega

theorem addDaysAux_spec : ∀ (fuel y n : Nat), n ≤ fuel → 1 ≤ y →
    (addDaysAux fuel y n).doy < daysInYear (addDaysAux fuel y n).year ∧
    janFirstAbs (addDaysAux fuel y n).year + (addDaysAux fuel y n).doy
      = janFirstAbs y + n ∧
    1 ≤ (addDaysAux fuel y n).year := by
  intro fuel
  induction fuel with
  | zero =>
    intro y n hn hy
    have hn0 : n = 0 := Nat.le_zero.mp hn
    subst hn0
    refine ⟨?_, rfl, hy⟩
    have := daysInYear_ge y
    simpa [addDaysAux] using by omega
  | succ f ih =>
    intro y n hn hy
    unfold addDaysAux
    split
    · exact ⟨by assumption, rfl, hy⟩
    · have hge : daysInYear y ≤ n := by omega
      have h365 := daysInYear_ge y
      have hrec := ih (y + 1) (n - daysInYear y) (by omega) (by omega)
      refine ⟨hrec.1, ?_, hrec.2.2⟩
      rw [hrec.2.1, janFirstAbs_succ y hy]
      omega

theorem OrdDate.addDays_abs (d : OrdDate) (k : Nat) (hy : 1 ≤ d.year) :
    (d.addDays k).abs = d.abs + k ∧
    (d.addDays k).doy < daysInYear (d.addDays k).year ∧
    1 ≤ (d.addDays k).year := by
  have h := addDaysAux_spec (d.doy + k + 1) d.year (d.doy + k) (by omega) hy
  refine ⟨?_, h.1, h.2.2⟩
  show (addDaysAux (d.doy + k + 1) d.year (d.doy + k)).abs = d.abs + k
  unfold OrdDate.abs
  rw [h.2.1]
  omega

/-! ## Claim C1 — period tiling

The tiling invariant fails on the code: for `today = 2025-01-01` the year's
first period has offset 0, so `_last_completed_5day_period` anchors to Jan 1
2024 at offset `floor((366 - 1) / 5) * 5 = 365`, returning the period
2024-12-31 … 2025-01-04.  That period overlaps the current period (its end
plus one day is 2025-01-05, not the current start 2025-01-01) and has not
even finished on 2025-01-01, contradicting both the tiling property and the
function's own docstring ("most recently completed 5-day period"). -/

/-- C1: evaluated at `today = 2025-01-01` (the year after a leap year), the
code returns last-completed period 2024-12-31 … 2025-01-04 while the current
period starts 2025-01-01, so `last.end + 1 day ≠ current.start`, the periods
overlap, and the "last completed" period has not yet completed. -/
theorem lastCompleted_overlaps_current_after_leap_year :
    lastCompletedPeriodDates ⟨2025, 0⟩ = (⟨2024, 365⟩, ⟨2025, 3⟩) ∧
    (currentPeriodDates ⟨2025, 0⟩).1 = ⟨2025, 0⟩ ∧
    _last_completed_5day_period ⟨2025, 0⟩ = ("2024-12-31", "2025-01-04") ∧
    (_current_5day_period ⟨2025, 0⟩).1 = ("2025-01-01") ∧
    ((⟨2025, 3⟩ : OrdDate).abs + 1 ≠ (⟨2025, 0⟩ : OrdDate).abs) ∧
    ((⟨2025, 0⟩ : OrdDate).abs ≤ (⟨2025, 3⟩ : OrdDate).abs) := by
  decide

/-! ## Claim C2 — the current period matches the spec arithmetic -/

/-- C2: for every `today`, `_current_5day_period` computes exactly the
spec's arithmetic (`start = anchor + floor((today - anchor)/5)*5 days`,
`end = start + 4`, `is_complete = today > end`, `days_remaining =
max(0, end - today + 1)` when not complete else 0), and the period length
invariant `end - start = 4 days` holds. -/
theorem current_period_matches_spec (today : OrdDate) (hy : 1 ≤ today.year) :
    currentPeriodDates today = currentPeriodSpec today ∧
    ((currentPeriodDates today).2.1).abs = ((currentPeriodDates today).1).abs + 4 ∧
    _current_5day_period today =
      (isoOfDate (currentPeriodSpec today).1, isoOfDate (currentPeriodSpec today).2.1,
        (currentPeriodSpec today).2.2.1, (currentPeriodSpec today).2.2.2) := by
  refine ⟨rfl, ?_, rfl⟩
  have h1 := OrdDate.addDays_abs ⟨today.year, 0⟩
    ((today.abs - (⟨today.year, 0⟩ : OrdDate).abs) / 5 * 5) hy
  have h2 := OrdDate.addDays_abs
    ((⟨today.year, 0⟩ : OrdDate).addDays ((today.abs - (⟨today.year, 0⟩ : OrdDate).abs) / 5 * 5))
    4 h1.2.2
  exact h2.1

/-- Witness for C2 at the spec's two named inputs, `today = 2025-01-01`
and `today = 2025-12-31`. -/
theorem current_period_matches_spec_witness :
    (1 ≤ (⟨2025, 0⟩ : OrdDate).year ∧
      (currentPeriodDates ⟨2025, 0⟩ = currentPeriodSpec ⟨2025, 0⟩ ∧
        ((currentPeriodDates ⟨2025, 0⟩).2.1).abs = ((currentPeriodDates ⟨2025, 0⟩).1).abs + 4 ∧
        _current_5day_period ⟨2025, 0⟩ =
          (isoOfDate (currentPeriodSpec ⟨2025, 0⟩).1, isoOfDate (currentPeriodSpec ⟨2025, 0⟩).2.1,
            (currentPeriodSpec ⟨2025, 0⟩).2.2.1, (currentPeriodSpec ⟨2025, 0⟩).2.2.2))) ∧
    (1 ≤ (⟨2025, 364⟩ : OrdDate).year ∧
      (currentPeriodDates ⟨2025, 364⟩ = currentPeriodSpec ⟨2025, 364⟩ ∧
        ((currentPeriodDates ⟨2025, 364⟩).2.1).abs = ((currentPeriodDates ⟨2025, 364⟩).1).abs + 4 ∧
        _current_5day_period ⟨2025, 364⟩ =
          (isoOfDate (currentPeriodSpec ⟨2025, 364⟩).1, isoOfDate (currentPeriodSpec ⟨2025, 364⟩).2.1,
            (currentPeriodSpec ⟨2025, 364⟩).2.2.1, (currentPeriodSpec ⟨2025, 364⟩).2.2.2))) :=
  ⟨⟨by decide, current_period_matches_spec ⟨2025, 0⟩ (by decide)⟩,
   ⟨by decide, current_period_matches_spec ⟨2025, 364⟩ (by decide)⟩⟩

/-! ## Claim C4 — insufficient-data tiering -/

/-- C4: with fewer entries than `min_reflections` the pipeline makes no
gateway call and returns the insufficient-data result, whose message is
determined solely by the entry count in three tiers; in particular
`analyze([], 3)` and `analyze([e], 3)` return distinct messages, both with
depth `"insufficient"` and no situations. -/
theorem analyze_insufficient_tiering (llm : LLMFn) (chat : ChatFn)
    (reflections : List Entry) (min_reflections : Nat)
    (h : reflections.length < min_reflections) :
    analyze_patterns_deep_sync llm chat reflections min_reflections =
      { letter := _gentle_insufficient_data_message reflections.length
        core_pattern := none
        situations := []
        analysis_depth := "insufficient" } ∧
    (reflections.length = 0 →
      (analyze_patterns_deep_sync llm chat reflections min_reflections).letter =
        _gentle_insufficient_data_message 0) ∧
    (reflections.length = 1 →
      (analyze_patterns_deep_sync llm chat reflections min_reflections).letter =
        _gentle_insufficient_data_message 1) ∧
    (2 ≤ reflections.length →
      (analyze_patterns_deep_sync llm chat reflections min_reflections).letter =
        _gentle_insufficient_data_message 2) ∧
    (∀ llm2 : LLMFn, ∀ chat2 : ChatFn,
      analyze_patterns_deep_sync llm2 chat2 reflections min_reflections =
        analyze_patterns_deep_sync llm chat reflections min_reflections) ∧
    (∀ e : Entry,
      (analyze_patterns_deep_sync llm chat [] 3).letter ≠
        (analyze_patterns_deep_sync llm chat [e] 3).letter ∧
      (analyze_patterns_deep_sync llm chat [] 3).analysis_depth = ("insufficient") ∧
      (analyze_patterns_deep_sync llm chat [e] 3).analysis_depth = ("insufficient") ∧
      (analyze_patterns_deep_sync llm chat [] 3).situations = [] ∧
      (analyze_patterns_deep_sync llm chat [e] 3).situations = []) := by
  have hbase :
      analyze_patterns_deep_sync llm chat reflections min_reflections =
        { letter := _gentle_insufficient_data_message reflections.length
          core_pattern := none
          situations := []
          analysis_depth := "insufficient" } := by
    unfold analyze_patterns_deep_sync
    rw [if_pos h]
  refine ⟨hbase, ?_, ?_, ?_, ?_, ?_⟩
  · intro h0; rw [hbase, h0]
  · intro h1; rw [hbase, h1]
  · intro h2
    rw [hbase]
    have h0 : reflections.length ≠ 0 := by omega
    have h1 : reflections.length ≠ 1 := by omega
    simp [_gentle_insufficient_data_message, h0, h1]
  · intro llm2 chat2
    rw [hbase]
    unfold analyze_patterns_deep_sync
    rw [if_pos h]
  · intro e
    have ha : analyze_patterns_deep_sync llm chat [] 3 =
        { letter := _gentle_insufficient_data_message 0
          core_pattern := none
          situations := []
          analysis_depth := "insufficient" } := by
      unfold analyze_patterns_deep_sync
      rw [if_pos (by decide : ([] : List Entry).length < 3)]
      rfl
    have hb : analyze_patterns_deep_sync llm chat [e] 3 =
        { letter := _gentle_insufficient_data_message 1
          core_pattern := none
          situations := []
          analysis_depth := "insufficient" } := by
      unfold analyze_patterns_deep_sync
      rw [if_pos (by simp : ([e] : List Entry).length < 3)]
      rfl
    rw [ha, hb]
    exact ⟨by decide, rfl, rfl, rfl, rfl⟩

/-- Witness for C4 at `reflections = []`, `min_reflections = 3`. -/
theorem analyze_insufficient_tiering_witness :
    ([] : List Entry).length < 3 ∧
    analyze_patterns_deep_sync (fun _ _ => Except.error ()) (fun _ _ => Except.error ()) [] 3 =
      { letter := _gentle_insufficient_data_message 0
        core_pattern := none
        situations := []
        analysis_depth := "insufficient" } :=
  ⟨by decide,
    by
      have h := analyze_insufficient_tiering (fun _ _ => Except.error ())
        (fun _ _ => Except.error ()) [] 3 (by decide)
      exact h.1⟩

/-! ## Claim C9 — the insight store boundary -/

/-- C9: an invalid `week_start` (not matching `YYYY-MM-DD`) makes
`get_weekly_insight_by_week` and `insert_weekly_insight` return `none` and
`delete_weekly_insight` return `false` without raising, for every client
and `user_id`; and on valid keys the inserted row's content is exactly the
stripped content truncated to 10000 characters (the stored value is the
same for any two clients whose `insert` agrees on that capped row). -/
theorem insight_store_boundary :
    (∀ (client : Option WeeklyInsightsTable) (uid ws content : String),
      _validate_week_start ws = false →
        get_weekly_insight_by_week client uid ws = none ∧
        insert_weekly_insight client uid ws content = none ∧
        delete_weekly_insight client uid ws = false) ∧
    (∀ (c c2 : WeeklyInsightsTable) (uid ws content : String),
      uid ≠ "" → content ≠ "" → _validate_week_start ws = true →
      c.insert (pyTake (pyStrip uid) 128) ws (pyTake (pyStrip content) 10000) =
        c2.insert (pyTake (pyStrip uid) 128) ws (pyTake (pyStrip content) 10000) →
        insert_weekly_insight (some c) uid ws content =
          insert_weekly_insight (some c2) uid ws content) ∧
    (∀ content : String, (pyTake (pyStrip content) 10000).length ≤ 10000) := by
  refine ⟨?_, ?_, ?_⟩
  · intro client uid ws content hws
    refine ⟨?_, ?_, ?_⟩
    · unfold get_weekly_insight_by_week
      rw [if_pos (Or.inr (by simp [hws]))]
    · unfold insert_weekly_insight
      rw [if_pos (Or.inr (Or.inr (by simp [hws])))]
    · unfold delete_weekly_insight
      rw [if_pos (Or.inr (by simp [hws]))]
  · intro c c2 uid ws content hu hc hws hins
    unfold insert_weekly_insight
    rw [if_neg (by simp [hu, hc, hws]), if_neg (by simp [hu, hc, hws])]
    simp only [hins]
  · intro content
    show ((pyStrip content).data.take 10000).length ≤ 10000
    simp

/-- Witness for C9: a malformed key `"not-a-date"` is rejected by all three
operations, and a valid insert caps `"  hi  "` to `"hi"`. -/
theorem insight_store_boundary_witness :
    (_validate_week_start ("not-a-date") = false ∧
      get_weekly_insight_by_week none ("alice") ("not-a-date") = none ∧
      insert_weekly_insight none ("alice") ("not-a-date") ("text") = none ∧
      delete_weekly_insight none ("alice") ("not-a-date") = false) ∧
    (pyTake (pyStrip ("  hi  ")) 10000).length ≤ 10000 := by
  have h := insight_store_boundary
  have h1 := h.1 none ("alice") ("not-a-date") ("text") (by decide)
  exact ⟨⟨by decide, h1.1, h1.2.1, h1.2.2⟩, h.2.2 ("  hi  ")⟩

/-! ## Shared lemmas about the pipeline -/

theorem gentle_message_ne_empty (n : Nat) : _gentle_insufficient_data_message n ≠ "" := by
  unfold _gentle_insufficient_data_message
  split_ifs <;> decide

theorem get_insight_letter_ne_empty (chat : ChatFn) (s : String) :
    get_insight_letter chat s ≠ "" := by
  unfold get_insight_letter
  dsimp only
  generalize chat (if pyStrip s = "" then insightLetterPromptEmpty else insightLetterPrompt s)
    insightLetterSystem = res
  cases res with
  | error e =>
    show INSIGHT_LETTER_FALLBACK ≠ ""
    decide
  | ok raw =>
    dsimp only
    split
    · rename_i hcond
      exact hcond.1
    · show INSIGHT_LETTER_FALLBACK ≠ ""
      decide

theorem shallow_fallback_eq (chat : ChatFn) (refl : List Entry) :
    _shallow_fallback_sync chat refl =
      { letter := get_insight_letter chat (_build_reflections_summary_simple refl)
        core_pattern := none
        situations := []
        analysis_depth := "shallow" } := rfl

/-- Case analysis on the degradation controller: every run lands in exactly
one of the `insufficient`, `shallow`, or `deep` shapes, with the deep
shape's guards recorded. -/
theorem analyze_patterns_cases (llm : LLMFn) (chat : ChatFn) (refl : List Entry) (m : Nat) :
    (refl.length < m ∧
      analyze_patterns_deep_sync llm chat refl m =
        { letter := _gentle_insufficient_data_message refl.length
          core_pattern := none
          situations := []
          analysis_depth := "insufficient" }) ∨
    analyze_patterns_deep_sync llm chat refl m = _shallow_fallback_sync chat refl ∨
    (∃ sits cp letter, 2 ≤ sits.length ∧ cp ≠ "" ∧ 50 ≤ cp.length ∧
      (letter = cp ∨ (letter ≠ "" ∧ 100 ≤ letter.length)) ∧
      analyze_patterns_deep_sync llm chat refl m =
        { letter := letter
          core_pattern := some cp
          situations := sits
          analysis_depth := "deep" }) := by
  unfold analyze_patterns_deep_sync
  split
  · exact Or.inl ⟨by assumption, rfl⟩
  · dsimp only
    cases h1 : llm (extract_situations_prompt (_build_reflections_text refl))
        SITUATION_EXTRACTION_SYSTEM with
    | error e => exact Or.inr (Or.inl rfl)
    | ok r =>
      dsimp only
      by_cases h2 : (parse_situations_response (r.getD "")).length < 2
      · exact Or.inr (Or.inl (by rw [if_pos h2]))
      · rw [if_neg h2]
        cases h3 : llm (identify_pattern_prompt (parse_situations_response (r.getD "")))
            PATTERN_IDENTIFICATION_SYSTEM with
        | error e => exact Or.inr (Or.inl rfl)
        | ok c =>
          dsimp only
          by_cases h4 : pyStrip (c.getD "") = "" ∨ (pyStrip (c.getD "")).length < 50
          · exact Or.inr (Or.inl (by rw [if_pos h4]))
          · rw [if_neg h4]
            push_neg at h4
            refine Or.inr (Or.inr ?_)
            cases h5 : llm (generate_letter_prompt (pyStrip (c.getD ""))
                (parse_situations_response (r.getD ""))
                (_build_reflections_text refl)) LETTER_GENERATION_SYSTEM with
            | error e =>
              refine ⟨parse_situations_response (r.getD ""), pyStrip (c.getD ""),
                pyStrip (c.getD ""), by omega, h4.1, h4.2, Or.inl rfl, ?_⟩
              dsimp only
              rw [if_pos h4.1]
            | ok s =>
              dsimp only
              by_cases h6 : _clean_letter (s.getD "") = "" ∨ (_clean_letter (s.getD "")).length < 100
              · exact ⟨parse_situations_response (r.getD ""), pyStrip (c.getD ""),
                  pyStrip (c.getD ""), by omega, h4.1, h4.2, Or.inl rfl, by rw [if_pos h6]⟩
              · refine ⟨parse_situations_response (r.getD ""), pyStrip (c.getD ""),
                  _clean_letter (s.getD ""), by omega, h4.1, h4.2, ?_, by rw [if_neg h6]⟩
                push_neg at h6
                exact Or.inr ⟨h6.1, h6.2⟩

/-! ## Claim C10 — result-shape invariant -/

/-- C10: for every entries list and every gateway, the pipeline result has
`analysis_depth` in `{"deep", "shallow", "insufficient"}`, a non-empty
letter, at least two situations and a ≥50-character `core_pattern` when
deep, and a null `core_pattern` with empty situations when shallow or
insufficient. -/
theorem analyze_result_well_formed (llm : LLMFn) (chat : ChatFn)
    (refl : List Entry) (m : Nat) :
    (analyze_patterns_deep_sync llm chat refl m).letter ≠ "" ∧
    (((analyze_patterns_deep_sync llm chat refl m).analysis_depth = ("deep") ∧
        2 ≤ (analyze_patterns_deep_sync llm chat refl m).situations.length ∧
        ∃ cp, (analyze_patterns_deep_sync llm chat refl m).core_pattern = some cp ∧
          50 ≤ cp.length) ∨
      ((analyze_patterns_deep_sync llm chat refl m).analysis_depth = ("shallow") ∧
        (analyze_patterns_deep_sync llm chat refl m).core_pattern = none ∧
        (analyze_patterns_deep_sync llm chat refl m).situations = []) ∨
      ((analyze_patterns_deep_sync llm chat refl m).analysis_depth = ("insufficient") ∧
        (analyze_patterns_deep_sync llm chat refl m).core_pattern = none ∧
        (analyze_patterns_deep_sync llm chat refl m).situations = [])) := by
  rcases analyze_patterns_cases llm chat refl m with ⟨hlt, heq⟩ | heq |
    ⟨sits, cp, letter, hs, hcp, hcl, hlet, heq⟩
  · rw [heq]
    exact ⟨gentle_message_ne_empty _, Or.inr (Or.inr ⟨rfl, rfl, rfl⟩)⟩
  · rw [heq, shallow_fallback_eq]
    exact ⟨get_insight_letter_ne_empty _ _, Or.inr (Or.inl ⟨rfl, rfl, rfl⟩)⟩
  · rw [heq]
    refine ⟨?_, Or.inl ⟨rfl, hs, cp, rfl, hcl⟩⟩
    rcases hlet with rfl | ⟨hne, _⟩
    · exact hcp
    · exact hne

/-! ## Claim C5 — gateway failures are absorbed at stage boundaries -/

/-- C5: the pipeline is a total function of its inputs (no exception
escapes): a raising gateway at stage 1 or stage 2 yields exactly the
shallow fallback, a raising gateway at stage 3 keeps the deep result with
the core pattern as letter, a raising Ollama transport inside the shallow
fallback yields the static fallback letter, and in all cases the depth is
one of the three tiers. -/
theorem analyze_gateway_failures_absorbed (llm : LLMFn) (chat : ChatFn)
    (refl : List Entry) (m : Nat) (hm : m ≤ refl.length) :
    (llm (extract_situations_prompt (_build_reflections_text refl)) SITUATION_EXTRACTION_SYSTEM =
        Except.error () →
      analyze_patterns_deep_sync llm chat refl m = _shallow_fallback_sync chat refl) ∧
    (∀ r, llm (extract_situations_prompt (_build_reflections_text refl)) SITUATION_EXTRACTION_SYSTEM =
        Except.ok r →
      2 ≤ (parse_situations_response (r.getD "")).length →
      llm (identify_pattern_prompt (parse_situations_response (r.getD "")))
          PATTERN_IDENTIFICATION_SYSTEM = Except.error () →
      analyze_patterns_deep_sync llm chat refl m = _shallow_fallback_sync chat refl) ∧
    (∀ r c, llm (extract_situations_prompt (_build_reflections_text refl)) SITUATION_EXTRACTION_SYSTEM =
        Except.ok r →
      2 ≤ (parse_situations_response (r.getD "")).length →
      llm (identify_pattern_prompt (parse_situations_response (r.getD "")))
          PATTERN_IDENTIFICATION_SYSTEM = Except.ok c →
      pyStrip (c.getD "") ≠ "" →
      50 ≤ (pyStrip (c.getD "")).length →
      llm (generate_letter_prompt (pyStrip (c.getD "")) (parse_situations_response (r.getD ""))
          (_build_reflections_text refl)) LETTER_GENERATION_SYSTEM = Except.error () →
      analyze_patterns_deep_sync llm chat refl m =
        { letter := pyStrip (c.getD "")
          core_pattern := some (pyStrip (c.getD ""))
          situations := parse_situations_response (r.getD "")
          analysis_depth := "deep" }) ∧
    (∀ chat2 : ChatFn, (∀ p sys, chat2 p sys = Except.error ()) →
      _shallow_fallback_sync chat2 refl =
        { letter := INSIGHT_LETTER_FALLBACK
          core_pattern := none
          situations := []
          analysis_depth := "shallow" }) ∧
    ((analyze_patterns_deep_sync llm chat refl m).analysis_depth = ("deep") ∨
      (analyze_patterns_deep_sync llm chat refl m).analysis_depth = ("shallow") ∨
      (analyze_patterns_deep_sync llm chat refl m).analysis_depth = ("insufficient")) := by
  have hnot : ¬ refl.length < m := Nat.not_lt.mpr hm
  refine ⟨?_, ?_, ?_, ?_, ?_⟩
  · intro h1
    unfold analyze_patterns_deep_sync
    rw [if_neg hnot]
    dsimp only
    rw [h1]
  · intro r h1 h2 h3
    unfold analyze_patterns_deep_sync
    rw [if_neg hnot]
    dsimp only
    rw [h1]
    dsimp only
    rw [if_neg (by omega), h3]
  · intro r c h1 h2 h3 hne hlen h5
    unfold analyze_patterns_deep_sync
    rw [if_neg hnot]
    dsimp only
    rw [h1]
    dsimp only
    rw [if_neg (by omega), h3]
    dsimp only
    rw [if_neg (by push_neg; exact ⟨hne, by omega⟩), h5]
    dsimp only
    rw [if_pos hne]
  · intro chat2 hall
    unfold _shallow_fallback_sync get_insight_letter
    dsimp only
    rw [hall _ _]
  · rcases analyze_patterns_cases llm chat refl m with ⟨hlt, _⟩ | heq |
      ⟨sits, cp, letter, _, _, _, _, heq⟩
    · omega
    · rw [heq, shallow_fallback_eq]
      exact Or.inr (Or.inl rfl)
    · rw [heq]
      exact Or.inl rfl

/-- Witness for C5: with three entries and an always-raising gateway the
pipeline returns exactly the shallow fallback, and with an always-raising
Ollama transport that fallback is the static letter. -/
theorem analyze_gateway_failures_absorbed_witness :
    3 ≤ wEntries.length ∧
    analyze_patterns_deep_sync wErrLLM wErrChat wEntries 3 =
      _shallow_fallback_sync wErrChat wEntries ∧
    _shallow_fallback_sync wErrChat wEntries =
      { letter := INSIGHT_LETTER_FALLBACK
        core_pattern := none
        situations := []
        analysis_depth := "shallow" } := by
  have h := analyze_gateway_failures_absorbed wErrLLM wErrChat wEntries 3 (by decide)
  exact ⟨by decide, h.1 rfl, h.2.2.2.1 wErrChat (fun _ _ => rfl)⟩

/-! ## Claim C3 — degradation monotonicity -/

/-- C3: with enough entries, if stage 1 parses to fewer than 2 situations
the result is exactly the shallow fallback (depth `"shallow"`, null
pattern, no situations, never `"deep"`), and the result is then identical
for any gateway agreeing with `llm` on the stage-1 call alone — the
Pattern Identifier and Letter Generator prompts are never consulted;
moreover a trimmed stage-2 reply shorter than 50 characters also never
yields `"deep"`. -/
theorem degradation_monotonicity (llm : LLMFn) (chat : ChatFn)
    (refl : List Entry) (m : Nat) (hm : m ≤ refl.length) :
    (∀ r, llm (extract_situations_prompt (_build_reflections_text refl)) SITUATION_EXTRACTION_SYSTEM =
        Except.ok r →
      (parse_situations_response (r.getD "")).length < 2 →
      analyze_patterns_deep_sync llm chat refl m = _shallow_fallback_sync chat refl ∧
      (analyze_patterns_deep_sync llm chat refl m).analysis_depth = ("shallow") ∧
      (analyze_patterns_deep_sync llm chat refl m).core_pattern = none ∧
      (analyze_patterns_deep_sync llm chat refl m).situations = [] ∧
      (analyze_patterns_deep_sync llm chat refl m).analysis_depth ≠ ("deep") ∧
      (∀ llm2 : LLMFn,
        llm2 (extract_situations_prompt (_build_reflections_text refl)) SITUATION_EXTRACTION_SYSTEM =
          llm (extract_situations_prompt (_build_reflections_text refl)) SITUATION_EXTRACTION_SYSTEM →
        analyze_patterns_deep_sync llm2 chat refl m =
          analyze_patterns_deep_sync llm chat refl m)) ∧
    (∀ r c, llm (extract_situations_prompt (_build_reflections_text refl)) SITUATION_EXTRACTION_SYSTEM =
        Except.ok r →
      2 ≤ (parse_situations_response (r.getD "")).length →
      llm (identify_pattern_prompt (parse_situations_response (r.getD "")))
          PATTERN_IDENTIFICATION_SYSTEM = Except.ok c →
      (pyStrip (c.getD "")).length < 50 →
      (analyze_patterns_deep_sync llm chat refl m).analysis_depth ≠ ("deep")) := by
  have hnot : ¬ refl.length < m := Nat.not_lt.mpr hm
  constructor
  · intro r h1 hfew
    have heq : analyze_patterns_deep_sync llm chat refl m = _shallow_fallback_sync chat refl := by
      unfold analyze_patterns_deep_sync
      rw [if_neg hnot]
      dsimp only
      rw [h1]
      dsimp only
      rw [if_pos hfew]
    refine ⟨heq, ?_, ?_, ?_, ?_, ?_⟩
    · rw [heq, shallow_fallback_eq]
    · rw [heq, shallow_fallback_eq]
    · rw [heq, shallow_fallback_eq]
    · rw [heq, shallow_fallback_eq]
      show ("shallow" : String) ≠ ("deep")
      decide
    · intro llm2 hagree
      have heq2 : analyze_patterns_deep_sync llm2 chat refl m = _shallow_fallback_sync chat refl := by
        unfold analyze_patterns_deep_sync
        rw [if_neg hnot]
        dsimp only
        rw [hagree.trans h1]
        dsimp only
        rw [if_pos hfew]
      rw [heq, heq2]
  · intro r c h1 h2 h3 hshort
    have heq : analyze_patterns_deep_sync llm chat refl m = _shallow_fallback_sync chat refl := by
      unfold analyze_patterns_deep_sync
      rw [if_neg hnot]
      dsimp only
      rw [h1]
      dsimp only
      rw [if_neg (by omega), h3]
      dsimp only
      rw [if_pos (Or.inr hshort)]
    rw [heq, shallow_fallback_eq]
    show ("shallow" : String) ≠ ("deep")
    decide

/-- Witness for C3: a gateway returning one situation sends three entries to
the shallow fallback with a null pattern and no situations. -/
theorem degradation_monotonicity_witness :
    3 ≤ wEntries.length ∧
    (parse_situations_response (((some ("[\x7b\"situation\":\"a\"\x7d]")) : Option String).getD "")).length < 2 ∧
    analyze_patterns_deep_sync (fun _ _ => Except.ok (some ("[\x7b\"situation\":\"a\"\x7d]")))
        wErrChat wEntries 3 =
      _shallow_fallback_sync wErrChat wEntries ∧
    (analyze_patterns_deep_sync (fun _ _ => Except.ok (some ("[\x7b\"situation\":\"a\"\x7d]")))
        wErrChat wEntries 3).analysis_depth = ("shallow") := by
  have h := degradation_monotonicity (fun _ _ => Except.ok (some ("[\x7b\"situation\":\"a\"\x7d]")))
    wErrChat wEntries 3 (by decide)
  have h1 := h.1 (some ("[\x7b\"situation\":\"a\"\x7d]")) rfl (by decide)
  exact ⟨by decide, by decide, h1.1, h1.2.1⟩

/-! ## Claim C7 — letter post-processing -/

/-- C7: `_clean_letter` drops a first line that case-insensitively starts
with a greeting token — in particular the cleaned
`"Dear friend,\nYou keep circling back..."` no longer starts with `"Dear"`
— and in stage 3 of the deep pipeline a cleaned letter that is empty or
shorter than 100 characters is replaced by exactly the core pattern. -/
theorem letter_salutation_and_short_fallback (llm : LLMFn) (chat : ChatFn)
    (refl : List Entry) (m : Nat) (hm : m ≤ refl.length) :
    (_clean_letter ("Dear friend,\nYou keep circling back to the same question.") =
        ("You keep circling back to the same question.") ∧
      pyStartsWith
        (_clean_letter ("Dear friend,\nYou keep circling back to the same question."))
        ("Dear") = false) ∧
    (∀ (letter l0 : String) (rest : List String), letter ≠ "" →
      pyStrip letter = letter →
      pyStartsWith letter ("```") = false →
      pySplit letter '\n' = l0 :: rest →
      startsGreeting (pyLower (pyStrip l0)) = true →
      _clean_letter letter = pyStrip (pyJoin ("\n") rest)) ∧
    (∀ r c s,
      llm (extract_situations_prompt (_build_reflections_text refl)) SITUATION_EXTRACTION_SYSTEM =
        Except.ok r →
      2 ≤ (parse_situations_response (r.getD "")).length →
      llm (identify_pattern_prompt (parse_situations_response (r.getD "")))
          PATTERN_IDENTIFICATION_SYSTEM = Except.ok c →
      pyStrip (c.getD "") ≠ "" →
      50 ≤ (pyStrip (c.getD "")).length →
      llm (generate_letter_prompt (pyStrip (c.getD "")) (parse_situations_response (r.getD ""))
          (_build_reflections_text refl)) LETTER_GENERATION_SYSTEM = Except.ok s →
      (_clean_letter (s.getD "") = "" ∨ (_clean_letter (s.getD "")).length < 100) →
      (analyze_patterns_deep_sync llm chat refl m).letter = pyStrip (c.getD "")) := by
  have hnot : ¬ refl.length < m := Nat.not_lt.mpr hm
  refine ⟨⟨by decide, by decide⟩, ?_, ?_⟩
  · intro letter l0 rest hne hstrip hfence hsplit hgreet
    unfold _clean_letter
    rw [if_neg hne, hstrip]
    dsimp only
    rw [hfence]
    simp only [Bool.false_eq_true, if_false]
    rw [hsplit]
    dsimp only
    rw [if_pos hgreet]
  · intro r c s h1 h2 h3 hne hlen h5 hshort
    unfold analyze_patterns_deep_sync
    rw [if_neg hnot]
    dsimp only
    rw [h1]
    dsimp only
    rw [if_neg (by omega), h3]
    dsimp only
    rw [if_neg (by push_neg; exact ⟨hne, by omega⟩), h5]
    dsimp only
    rw [if_pos hshort]

/-- Witness for C7: the stubbed three-stage gateway whose stage-3 letter is
the 1-character string `"x"` makes the deep pipeline return the stage-2
core pattern as the letter. -/
theorem letter_salutation_and_short_fallback_witness :
    3 ≤ wEntries.length ∧
    _clean_letter ("Dear friend,\nYou keep circling back to the same question.") =
      ("You keep circling back to the same question.") ∧
    (analyze_patterns_deep_sync wLLM wErrChat wEntries 3).letter =
      pyStrip (((some wPattern) : Option String).getD "") := by
  have h := letter_salutation_and_short_fallback wLLM wErrChat wEntries 3 (by decide)
  refine ⟨by decide, h.1.1, ?_⟩
  exact h.2.2 (some wExtractorJSON) (some wPattern) (some ("x")) rfl (by decide) rfl
    (by decide) (by decide) rfl (by decide)

/-! ## Claim C6 — defensive parsing of the situations response -/

theorem pyTake_length_le (s : String) (n : Nat) : (pyTake s n).length ≤ n := by
  show (s.data.take n).length ≤ n
  simp

theorem situationOfItem_eq_spec (item : JVal) :
    situationOfItem item = situationOfItemSpec item := by
  cases item with
  | obj fs =>
    unfold situationOfItem situationOfItemSpec
    cases hs : jGet fs ("situation") with
    | none => simp [hs]
    | some v =>
      simp only [hs, Option.map_some', Option.getD_some]
      by_cases ht : jTruthy v
      · rw [if_pos ht, if_pos ht]
        have he :
            (match jGet fs ("emotion") with
             | some w => pyStr w
             | none =>
               match jGet fs ("feeling") with
               | some w => pyStr w
               | none => "") =
            pyStr ((jGet fs ("emotion")).getD ((jGet fs ("feeling")).getD (JVal.str ""))) := by
          cases jGet fs ("emotion") with
          | some w => rfl
          | none =>
            cases jGet fs ("feeling") with
            | some w => rfl
            | none => rfl
        have hb :
            (match jGet fs ("behavior") with
             | some w => pyStr w
             | none => "") = pyStr ((jGet fs ("behavior")).getD (JVal.str "")) := by
          cases jGet fs ("behavior") with
          | some w => rfl
          | none => rfl
        have hj :
            (match jGet fs ("self_judgment") with
             | some w => pyStr w
             | none =>
               match jGet fs ("self_doubt") with
               | some w => pyStr w
               | none => "") =
            pyStr ((jGet fs ("self_judgment")).getD ((jGet fs ("self_doubt")).getD (JVal.str ""))) := by
          cases jGet fs ("self_judgment") with
          | some w => rfl
          | none =>
            cases jGet fs ("self_doubt") with
            | some w => rfl
            | none => rfl
        rw [he, hb, hj]
      · rw [if_neg ht, if_neg ht]
  | null => rfl
  | bool b => rfl
  | num lex => rfl
  | str s => rfl
  | arr items => rfl

theorem validateSituations_caps (items : List JVal) (sit : Situation)
    (h : sit ∈ validateSituations items) :
    sit.situation.length ≤ 500 ∧ sit.emotion.length ≤ 200 ∧
    sit.behavior.length ≤ 300 ∧ sit.self_judgment.length ≤ 200 := by
  rcases List.mem_filterMap.mp h with ⟨item, _, hf⟩
  cases item with
  | obj fs =>
    unfold situationOfItem at hf
    dsimp only at hf
    by_cases hg : ((jGet fs ("situation")).map jTruthy).getD false = true
    · rw [if_pos hg] at hf
      cases hf
      exact ⟨pyTake_length_le _ _, pyTake_length_le _ _, pyTake_length_le _ _,
        pyTake_length_le _ _⟩
    · rw [if_neg hg] at hf
      cases hf
  | null => cases hf
  | bool b => cases hf
  | num lex => cases hf
  | str s => cases hf
  | arr l => cases hf

theorem parse_situations_shape (raw : String) :
    parse_situations_response raw = [] ∨
    ∃ items, parse_situations_response raw = validateSituations items := by
  unfold parse_situations_response
  split
  · exact Or.inl rfl
  · dsimp only
    split
    · rename_i s e hs he
      split
      · rename_i items hj
        exact Or.inr ⟨items, rfl⟩
      · exact Or.inl rfl
      · exact Or.inl rfl
    · exact Or.inl rfl
    · exact Or.inl rfl

/-- C6 (counterexample): on `[{"situation": "x", "feeling": "angry"}]` the
parser does not default the missing `emotion` to the empty string, nor does
it drop the unrecognized `feeling` field — `emotion` becomes `"angry"`. -/
theorem parse_situations_feeling_alias_counterexample :
    parse_situations_response ("[\x7b\"situation\": \"x\", \"feeling\": \"angry\"\x7d]") =
      [{ situation := "x", emotion := "angry", behavior := "", self_judgment := "" }] ∧
    parse_situations_response ("[\x7b\"situation\": \"x\", \"feeling\": \"angry\"\x7d]") ≠
      [{ situation := "x", emotion := "", behavior := "", self_judgment := "" }] := by
  constructor
  · decide
  · decide

/-- C6 (amended): `parse_situations_response` never raises and always
returns a list; after optional fence stripping it isolates the first-`[`
to last-`]` substring and yields `[]` when absent or unparsable or not a
list (`parse_situations_shape`); every returned record obeys the field
caps (500/200/300/200); and the per-item validation follows the amended
rule: keep items that are records with a truthy `situation`, with a
missing `emotion` falling back to `feeling` and a missing `self_judgment`
to `self_doubt`, other missing fields defaulting to the empty string. -/
theorem parse_situations_defensive :
    (∀ raw : String, ∀ sit ∈ parse_situations_response raw,
      sit.situation.length ≤ 500 ∧ sit.emotion.length ≤ 200 ∧
      sit.behavior.length ≤ 300 ∧ sit.self_judgment.length ≤ 200) ∧
    (∀ items : List JVal, validateSituations items = items.filterMap situationOfItemSpec) ∧
    parse_situations_response "" = [] := by
  refine ⟨?_, ?_, rfl⟩
  · intro raw sit hmem
    rcases parse_situations_shape raw with h | ⟨items, h⟩
    · rw [h] at hmem
      cases hmem
    · rw [h] at hmem
      exact validateSituations_caps items sit hmem
  · intro items
    unfold validateSituations
    exact List.filterMap_congr (fun a _ => situationOfItem_eq_spec a)

/-- Witness for C6 (amended), at the alias input and its single record. -/
theorem parse_situations_defensive_witness :
    ({ situation := "x", emotion := "angry", behavior := "", self_judgment := "" } : Situation) ∈
      parse_situations_response ("[\x7b\"situation\": \"x\", \"feeling\": \"angry\"\x7d]") ∧
    (({ situation := "x", emotion := "angry", behavior := "", self_judgment := "" } : Situation).situation.length ≤ 500 ∧
      ({ situation := "x", emotion := "angry", behavior := "", self_judgment := "" } : Situation).emotion.length ≤ 200 ∧
      ({ situation := "x", emotion := "angry", behavior := "", self_judgment := "" } : Situation).behavior.length ≤ 300 ∧
      ({ situation := "x", emotion := "angry", behavior := "", self_judgment := "" } : Situation).self_judgment.length ≤ 200) :=
  ⟨by decide,
    parse_situations_defensive.1 ("[\x7b\"situation\": \"x\", \"feeling\": \"angry\"\x7d]")
      { situation := "x", emotion := "angry", behavior := "", self_judgment := "" } (by decide)⟩

/-! ## Claim C8 — idempotent letter caching -/

/-- C8: whenever the store holds a row with non-empty (stripped) content for
`(user_id[:128], last_completed_period.start)`, the letter endpoint returns
exactly that stored content (stripped) with the last completed period and
`too_early = false`, and the response is identical for every gateway,
transport, entry source and insert function — no language-model call can
influence it.  Hence a second call for the same user and period returns the
stored first-call content even if the gateway errors. -/
theorem insights_letter_cache_fast_path
    (store_get : String → String → Option InsightRow)
    (list_since : String → String → List Entry)
    (insert : String → String → String → Option String)
    (llm : LLMFn) (chat : ChatFn) (today : OrdDate) (now_minus_30_iso user_id : String)
    (row : InsightRow)
    (hrow : store_get (pyTake user_id 128) (_last_completed_5day_period today).1 = some row)
    (hcontent : pyStrip (row.content.getD "") ≠ "") :
    insights_letter store_get list_since insert llm chat today now_minus_30_iso user_id =
      cachedLetterResponse row (_last_completed_5day_period today).1
        (_last_completed_5day_period today).2 ∧
    (∀ (llm2 : LLMFn) (chat2 : ChatFn) (list2 : String → String → List Entry)
        (insert2 : String → String → String → Option String),
      insights_letter store_get list2 insert2 llm2 chat2 today now_minus_30_iso user_id =
        insights_letter store_get list_since insert llm chat today now_minus_30_iso user_id) := by
  have hbase : ∀ (ls : String → String → List Entry)
      (ins : String → String → String → Option String) (l : LLMFn) (ch : ChatFn),
      insights_letter store_get ls ins l ch today now_minus_30_iso user_id =
        cachedLetterResponse row (_last_completed_5day_period today).1
          (_last_completed_5day_period today).2 := by
    intro ls ins l ch
    unfold insights_letter
    dsimp only
    rw [hrow]
    dsimp only
    rw [if_pos hcontent]
  refine ⟨hbase list_since insert llm chat, ?_⟩
  intro llm2 chat2 list2 insert2
  rw [hbase list2 insert2 llm2 chat2, hbase list_since insert llm chat]

/-- Witness for C8: the concrete store `wStore` holding a letter for
`("alice", "2025-01-16")`, queried on 2025-01-21 (day 20 of 2025), answers
the cached content for every gateway, including an always-raising one. -/
theorem insights_letter_cache_fast_path_witness :
    wStore (pyTake ("alice") 128) (_last_completed_5day_period ⟨2025, 20⟩).1 = some wRow ∧
    pyStrip (wRow.content.getD "") ≠ "" ∧
    insights_letter wStore (fun _ _ => []) (fun _ _ _ => none) wErrLLM wErrChat
        ⟨2025, 20⟩ ("2024-12-22T00:00:00+00:00") ("alice") =
      cachedLetterResponse wRow (_last_completed_5day_period ⟨2025, 20⟩).1
        (_last_completed_5day_period ⟨2025, 20⟩).2 := by
  have h := insights_letter_cache_fast_path wStore (fun _ _ => []) (fun _ _ _ => none)
    wErrLLM wErrChat ⟨2025, 20⟩ ("2024-12-22T00:00:00+00:00") ("alice") wRow (by decide)
    (by decide)
  exact ⟨by decide, by decide, h.1⟩

end Reflect
